import Mathlib

/-!
# Verification of the predictive-maintenance dashboard orchestration

Shallow embedding of the orchestration logic of the vehicle-health
dashboard frontend:

* `smsSeverity` — the severity classification in `sendSmsAlert`
  (Dashboard component).
* `DashState` / `stepDash` — the Dashboard orchestration: the analyze
  handler, the auto-upload `useEffect` guarded by the
  `pdfUploadTriggered` ref, the reset `useEffect` keyed on
  `prediction?.kpis`, the email button and `handleSendEmail`.
* `InsState` / `stepIns` — the `fetchAIInsights` logic of the
  `DegradationContributors` component.
* `parseInsights` — the defensive code-fence-stripping JSON recovery
  used by `DegradationContributors` and the PDF report component.
* `convertToFeatures` — the feature encoder (modelled from the spec;
  its source file is not part of the provided sources).
* `geoErrorMessage` / `WorkshopState` — the geolocation error handling
  of the `NearbyWorkshops` component.
* `ChatState` / `stepChat` — the chat panel initialization guard of the
  `Chatbot` component.

Machine events model the UI / network callbacks; list-valued fields such
as `uploads`, `emails` and `initCalls` are observation logs recording
each invocation of the corresponding network collaborator, so that
"at most once" claims can be stated as properties of the log.
-/

namespace PredMaint

/-! ## SMS severity classification (`sendSmsAlert` in the Dashboard) -/

/-- Severity classification of `sendSmsAlert`:
`if (failureProb >= 70) severity = 'critical'; else if (failureProb >= 40)
severity = 'warning';` starting from `'normal'`.  JS numbers are embedded
as rationals. -/
def smsSeverity (failureProb : ℚ) : String :=
  if failureProb ≥ 70 then "critical"
  else if failureProb ≥ 40 then "warning"
  else "normal"

/-- Embedding of `predictionData.kpis?.failure_probability || 0` — a missing failure
probability falls back to `0`. -/
def failureProbOrZero (failureProbability : Option ℚ) : ℚ :=
  failureProbability.getD 0

/-! ## Dashboard orchestration state machine

State of the Dashboard component relevant to prediction, the
auto-upload pipeline, SMS and email.  `Nat` identities stand for the
opaque `PredictionResult` and insight payloads. -/

structure DashState where
  /-- State `prediction`: identity of the current PredictionResult. -/
  prediction : Option ℕ
  /-- State `loading` of `handleAnalyze`. -/
  loading : Bool
  /-- State `error` (user-visible error banner text). -/
  error : Option String
  /-- State `aiInsights` (identity of the last received insights payload). -/
  insights : Option ℕ
  /-- Ref `pdfUploadTriggered.current` — the upload guard. -/
  triggered : Bool
  /-- State `pdfUploadStatus.uploading`. -/
  uploading : Bool
  /-- State `pdfUploadStatus.uploaded`. -/
  uploaded : Bool
  /-- State `pdfUploadStatus.url` (token identifying the stored artifact). -/
  url : Option ℕ
  /-- State `emailSending`. -/
  emailSending : Bool
  /-- State `emailSent`. -/
  emailSent : Bool
  /-- whether a phone number has been entered (`phoneNumber` non-empty). -/
  phone : Bool
  /-- log: prediction identity at each `uploadPDFToCloudinary` invocation. -/
  uploads : List ℕ
  /-- count of upload invocations made while the current PredictionResult
  is current. -/
  uploadsCur : ℕ
  /-- of those, the ones triggered by an insight-arrival event. -/
  uploadsCurIns : ℕ
  /-- count of `sendAlert` (SMS) invocations for the current PredictionResult. -/
  smsCur : ℕ
  /-- log: prediction identity at each `sendReportEmail` invocation. -/
  emails : List ℕ
  /-- count of successful email sends over the whole session. -/
  emailsOk : ℕ
  deriving DecidableEq

/-- Initial Dashboard state (all `useState` initializers and the
`useRef(false)` upload guard). -/
def initDash : DashState :=
  { prediction := none, loading := false, error := none, insights := none,
    triggered := false, uploading := false, uploaded := false, url := none,
    emailSending := false, emailSent := false, phone := false,
    uploads := [], uploadsCur := 0, uploadsCurIns := 0, smsCur := 0,
    emails := [], emailsOk := 0 }

/-- Events driving the Dashboard orchestration. -/
inductive DashEv where
  /-- Handler `handleAnalyze` begins: `setLoading(true); setError(null)`. -/
  | analyzeStart
  /-- Call `predictVehicleHealth` resolved with `success: true` carrying a new
  PredictionResult. -/
  | analyzeOk (id : ℕ)
  /-- Call `predictVehicleHealth` resolved with `success: false`, or rejected:
  `setError(msg)` in either branch, `setLoading(false)` in `finally`. -/
  | analyzeFail (msg : String)
  /-- Callback `handleAIInsightsUpdate` delivered a (new or refreshed) insights
  payload: `setAiInsights(insights)`. -/
  | insightsArrive (id : ℕ)
  /-- the in-flight `uploadPDFToCloudinary` call resolved. -/
  | uploadResult (ok : Bool)
  /-- the user clicked the Email button. -/
  | emailClick
  /-- the in-flight `sendReportEmail` call resolved. -/
  | emailResult (ok : Bool)
  /-- the phone-number field became non-empty (`true`) or empty (`false`). -/
  | setPhone (b : Bool)
  deriving DecidableEq

/-- Body of the auto-upload `useEffect` (declared first in the component):
`if (aiInsights && prediction && !pdfUploadTriggered.current) {
  pdfUploadTriggered.current = true;
  setPdfUploadStatus({uploading: true, uploaded: false, url: null});
  ... uploadPDFToCloudinary(...) }`.
`fromInsight` is bookkeeping: whether this effect run was caused by an
insight-arrival event (as opposed to a prediction change). -/
def uploadEffect (fromInsight : Bool) (s : DashState) : DashState :=
  if s.insights.isSome && s.prediction.isSome && !s.triggered then
    { s with triggered := true, uploading := true, uploaded := false, url := none,
             uploads := s.uploads ++ [s.prediction.getD 0],
             uploadsCur := s.uploadsCur + 1,
             uploadsCurIns := s.uploadsCurIns + (if fromInsight then 1 else 0) }
  else s

/-- Body of the reset `useEffect` (declared second, keyed on
`prediction?.kpis`): `pdfUploadTriggered.current = false;
setPdfUploadStatus({uploading: false, uploaded: false, url: null});`. -/
def resetEffect (s : DashState) : DashState :=
  { s with triggered := false, uploading := false, uploaded := false, url := none }

/-- One orchestration step.  React runs the two `useEffect`s in
declaration order after a commit in which their dependencies changed:
on a prediction change both run (upload effect first, then reset
effect); on an insights change only the upload effect runs. -/
def stepDash (s : DashState) : DashEv → DashState
  | .analyzeStart => { s with loading := true, error := none }
  | .analyzeOk id =>
      let s1 := { s with prediction := some id, loading := false,
                         smsCur := if s.phone then 1 else 0,
                         uploadsCur := 0, uploadsCurIns := 0 }
      resetEffect (uploadEffect false s1)
  | .analyzeFail msg => { s with loading := false, error := some msg }
  | .insightsArrive id => uploadEffect true { s with insights := some id }
  | .uploadResult ok =>
      if s.uploading then
        if ok then
          { s with uploading := false, uploaded := true, url := some s.uploads.length }
        else
          { s with uploading := false, uploaded := false, url := none }
      else s
  | .emailClick =>
      if s.uploaded && !s.emailSending && !s.emailSent then
        match s.url with
        | none => s
        | some _ =>
            { s with emailSending := true,
                     emails := s.emails ++ [s.prediction.getD 0] }
      else s
  | .emailResult ok =>
      if s.emailSending then
        { s with emailSending := false, emailSent := s.emailSent || ok,
                 emailsOk := s.emailsOk + (if ok then 1 else 0) }
      else s
  | .setPhone b => { s with phone := b }

/-- Run a sequence of events from the initial Dashboard state. -/
def runDash (evs : List DashEv) : DashState :=
  evs.foldl stepDash initDash

/-- Inductive invariant of the Dashboard orchestration. -/
def dashInv (s : DashState) : Prop :=
  s.uploadsCur ≤ 2 ∧
  s.uploadsCurIns ≤ 1 ∧
  (s.triggered = false → s.uploadsCur ≤ 1) ∧
  (s.triggered = false → s.uploadsCurIns = 0) ∧
  s.emailsOk ≤ 1 ∧
  (s.emailsOk = 1 → s.emailSent = true) ∧
  (s.emailSending = true → s.emailSent = false)

/-! ## Insight fetching (`fetchAIInsights` in `DegradationContributors`)

`fetchAIInsights` sets `loadingInsights := true`, clears
`insightsError`, awaits `getAIInsights`, and on a successful response
stores the payload with `setAiInsights(result.insights)`; there is no
request identity check on completion.  Requests are identified by a
`Nat`; `pending` holds the issued, not-yet-resolved requests. -/

structure InsState where
  /-- issued `getAIInsights` requests that have not resolved yet. -/
  pending : List ℕ
  /-- State `aiInsights`: the request whose payload is currently applied. -/
  applied : Option ℕ
  /-- State `loadingInsights`. -/
  loading : Bool
  /-- State `insightsError`. -/
  err : Option String
  deriving DecidableEq

/-- Initial `DegradationContributors` state. -/
def initIns : InsState :=
  { pending := [], applied := none, loading := false, err := none }

/-- Events of the insight-fetch logic. -/
inductive InsEv where
  /-- Function `fetchAIInsights()` invoked (auto on contributor change, or via the
  manual refresh button), issuing request `rid`.  The non-empty
  contributor guard at the top of the function is assumed passed. -/
  | fetch (rid : ℕ)
  /-- request `rid` resolved with `success: true` and an insights payload. -/
  | resolveOk (rid : ℕ)
  /-- request `rid` resolved unsuccessfully (or the call rejected). -/
  | resolveFail (rid : ℕ)
  deriving DecidableEq

/-- One step of the insight-fetch logic. -/
def stepIns (s : InsState) : InsEv → InsState
  | .fetch rid =>
      { s with loading := true, err := none, pending := s.pending ++ [rid] }
  | .resolveOk rid =>
      if rid ∈ s.pending then
        { s with pending := s.pending.erase rid, applied := some rid,
                 loading := false }
      else s
  | .resolveFail rid =>
      if rid ∈ s.pending then
        { s with pending := s.pending.erase rid,
                 err := some "Failed to generate insights", loading := false }
      else s

/-- Run a sequence of insight-fetch events from the initial state. -/
def runIns (evs : List InsEv) : InsState :=
  evs.foldl stepIns initIns

/-! ## Defensive insight parsing (`parseInsights`)

The JS source (identical in `DegradationContributors` and the PDF
component):

```
if (jsonStr.includes('<3 backticks>json')) {
  jsonStr = jsonStr.replace(/<3 backticks>json\n?/g, '')
                   .replace(/<3 backticks>\n?/g, '');
} else if (jsonStr.includes('<3 backticks>')) {
  jsonStr = jsonStr.replace(/<3 backticks>\n?/g, '');
}
jsonStr = jsonStr.trim();
const parsed = JSON.parse(jsonStr);
return Array.isArray(parsed) ? parsed : null;   // wrapped in try/catch -> null
```

Strings are embedded as `List Char`.  `JSON.parse` is a platform
collaborator, embedded as a parameter `jp : List Char → Option JsVal`
(`none` models a thrown parse error). -/

/-- The backtick character. -/
def bq : Char := '\x60'

/-- An insight card as consumed by the view and the PDF component:
`{type, title, description}`. -/
structure InsightCard where
  type : String
  title : String
  description : String
  deriving DecidableEq

/-- Shape of a `JSON.parse` result as far as the source code inspects it:
`Array.isArray(parsed)` is the only test applied. -/
inductive JsVal where
  /-- a JSON array, whose elements the code uses as insight cards. -/
  | list (cards : List InsightCard)
  /-- any non-array JSON value. -/
  | nonList
  deriving DecidableEq

/-- Whitespace for `String.prototype.trim` (the kinds relevant here). -/
def isJsWs (c : Char) : Bool :=
  c = ' ' || c = '\n' || c = '\t' || c = '\r'

/-- Embedding of `String.prototype.trim`: drop whitespace from both ends. -/
def trimChars (s : List Char) : List Char :=
  ((s.reverse.dropWhile isJsWs).reverse).dropWhile isJsWs

/-- Drop one leading newline if present: the `\n?` tail of the fence
regular expressions. -/
def dropNl : List Char → List Char
  | '\n' :: r => r
  | r => r

/-- Fuelled global replace of `tok` followed by an optional newline with
the empty string, scanning left to right (the semantics of
`replace(/tok\n?/g, '')`).  Fuel `s.length` suffices for non-empty
`tok`. -/
def stripTokFuel (tok : List Char) : ℕ → List Char → List Char
  | _, [] => []
  | 0, s => s
  | fuel + 1, c :: rest =>
    if tok.isPrefixOf (c :: rest) then
      stripTokFuel tok fuel (dropNl ((c :: rest).drop tok.length))
    else
      c :: stripTokFuel tok fuel rest

/-- Global replace of `tok` plus optional trailing newline with `''`. -/
def stripTok (tok s : List Char) : List Char :=
  stripTokFuel tok s.length s

/-- Embedding of `String.prototype.includes`: substring test. -/
def containsTok (tok : List Char) : List Char → Bool
  | [] => tok.isEmpty
  | c :: rest => tok.isPrefixOf (c :: rest) || containsTok tok rest

/-- The 7-character fence marker (3 backticks followed by `json`). -/
def jsonFenceTok : List Char := bq :: bq :: bq :: 'j' :: 's' :: 'o' :: 'n' :: []

/-- The plain 3-backtick fence marker. -/
def fenceTok : List Char := bq :: bq :: bq :: []

/-- The fence-stripping preprocessing applied before `JSON.parse`. -/
def fenceStripped (insightsStr : List Char) : List Char :=
  if containsTok jsonFenceTok insightsStr then
    stripTok fenceTok (stripTok jsonFenceTok insightsStr)
  else if containsTok fenceTok insightsStr then
    stripTok fenceTok insightsStr
  else insightsStr

/-- Embedding of `parseInsights`, with `JSON.parse` abstracted as `jp`.  Returns
`none` exactly when the JS function returns `null` (parse exception, or
a parsed value that is not an array). -/
def parseInsights (jp : List Char → Option JsVal) (insightsStr : List Char) :
    Option (List InsightCard) :=
  match jp (trimChars (fenceStripped insightsStr)) with
  | some (JsVal.list cards) => some cards
  | some JsVal.nonList => none
  | none => none

/-- The possible renderings of the AI-insight region of
`DegradationContributors`. -/
inductive InsightView where
  | loadingView
  | errorView (msg : String)
  | cardsView (cards : List InsightCard)
  | rawTextView (raw : List Char)
  | promptView
  deriving DecidableEq

/-- The render selection for the AI-insight region:
`loadingInsights ? spinner : insightsError ? error : (insightCards &&
insightCards.length > 0) ? cards : aiInsights ? raw text : prompt`. -/
def renderInsightRegion (jp : List Char → Option JsVal) (loading : Bool)
    (err : Option String) (ai : Option (List Char)) : InsightView :=
  if loading then .loadingView
  else
    match err with
    | some m => .errorView m
    | none =>
      match ai with
      | none => .promptView
      | some text =>
        match parseInsights jp text with
        | some cards =>
            if 0 < cards.length then .cardsView cards else .rawTextView text
        | none => .rawTextView text

/-! ## Feature encoder -/

/-- A feature definition of the fixed ordered schema
(`FEATURE_DEFINITIONS`): identifier, default value and valid range. -/
structure FeatureDef where
  id : String
  default : ℚ
  min : ℚ
  max : ℚ
  deriving DecidableEq

/-- Modelled from the spec: `convertToFeatures` lives in
`src/utils/helpers`, which is not among the provided sources (only
its use at the Dashboard call site is).  Per the spec's Feature
Encoder contract: "given a TelemetryInput and a fixed ordered schema of
feature definitions (id, default, valid range), produce an ordered
numeric sequence of exactly the schema's length.  For each schema
entry, use the input's value if present and within range; otherwise use
the schema default."  Encoding of one schema entry: -/
def encodeFeature (input : String → Option ℚ) (f : FeatureDef) : ℚ :=
  match input f.id with
  | some v => if f.min ≤ v ∧ v ≤ f.max then v else f.default
  | none => f.default

/-- Modelled from the spec: the Feature Encoder maps the schema in
order through `encodeFeature`. -/
def convertToFeatures (schema : List FeatureDef) (input : String → Option ℚ) :
    List ℚ :=
  schema.map (encodeFeature input)

/-- The Dashboard's `telemetryValues` initializer: every schema entry
starts at its default (`defaults[f.id] = f.default`). -/
def defaultTelemetry (schema : List FeatureDef) (x : String) : Option ℚ :=
  (schema.find? (fun f => f.id = x)).map (fun f => f.default)

/-! ## Geolocation error handling (`NearbyWorkshops`) -/

/-- The four failure kinds of `navigator.geolocation.getCurrentPosition`
as distinguished by the error callback's `switch (err.code)`. -/
inductive GeoErrCode where
  | permissionDenied
  | positionUnavailable
  | timeoutExpired
  | unknownErr
  deriving DecidableEq

/-- The user-facing message chosen by the error callback (identical in
both `NearbyWorkshops` variants). -/
def geoErrorMessage : GeoErrCode → String
  | .permissionDenied =>
      "Location permission denied. Please enable location access in your browser settings."
  | .positionUnavailable =>
      "Location information unavailable. Please try again."
  | .timeoutExpired =>
      "Location request timed out. Please try again."
  | .unknownErr =>
      "An error occurred while getting your location."

/-- The `NearbyWorkshops` state relevant to the lookup. -/
structure WorkshopState where
  loading : Bool
  error : Option String
  hasLocation : Bool
  deriving DecidableEq

/-- Function `getCurrentLocation` entry: `setLoading(true); setError(null)`. -/
def startLocationLookup (s : WorkshopState) : WorkshopState :=
  { s with loading := true, error := none }

/-- The geolocation error callback: map the code to its message and stop
loading. -/
def geoFailure (s : WorkshopState) (e : GeoErrCode) : WorkshopState :=
  { s with loading := false, error := some (geoErrorMessage e) }

/-- The error `Alert` with its Retry button (wired to
`getCurrentLocation`) is rendered exactly when an error is present and
the lookup is not loading. -/
def retryVisible (s : WorkshopState) : Bool :=
  s.error.isSome && !s.loading

/-! ## Chat panel initialization (`Chatbot`) -/

/-- The `Chatbot` component state relevant to initialization, plus its
props (`isReady`, `prediction`) and an observation log of
`initializeChatbot` invocations. -/
structure ChatState where
  isOpen : Bool
  isInitializing : Bool
  isInitialized : Bool
  /-- prediction identity captured by the in-flight `initializeChatbot`
  call, if any. -/
  pendingInit : Option ℕ
  /-- prediction identity whose context the successful initialization
  loaded. -/
  contextPred : Option ℕ
  /-- log: prediction identity at each `initializeChatbot` invocation. -/
  initCalls : List ℕ
  /-- the `isReady` prop. -/
  isReady : Bool
  /-- the `prediction` prop. -/
  prediction : Option ℕ
  deriving DecidableEq

/-- Initial `Chatbot` state. -/
def initChat : ChatState :=
  { isOpen := false, isInitializing := false, isInitialized := false,
    pendingInit := none, contextPred := none, initCalls := [],
    isReady := false, prediction := none }

/-- Events of the chat panel. -/
inductive ChatEv where
  /-- the floating button toggles `isOpen`. -/
  | toggle
  /-- the `isReady` / `prediction` props changed. -/
  | propsUpdate (ready : Bool) (pred : Option ℕ)
  /-- the in-flight `initializeChatbot` call resolved. -/
  | initResult (ok : Bool)
  deriving DecidableEq

/-- Body of the initialization `useEffect` (dependencies `[isOpen,
isReady, prediction, isInitialized]`): `if (isOpen && isReady &&
prediction && !isInitialized && !isInitializing) initializeChat()`. -/
def chatInitEffect (s : ChatState) : ChatState :=
  if s.isOpen && s.isReady && s.prediction.isSome
      && !s.isInitialized && !s.isInitializing then
    { s with isInitializing := true, pendingInit := s.prediction,
             initCalls := s.initCalls ++ [s.prediction.getD 0] }
  else s

/-- One step of the chat panel.  The effect re-runs after any event that
changes one of its dependencies; a failed initialization only clears
`isInitializing`, which is not a dependency, so no effect run follows
it. -/
def stepChat (s : ChatState) : ChatEv → ChatState
  | .toggle => chatInitEffect { s with isOpen := !s.isOpen }
  | .propsUpdate r p => chatInitEffect { s with isReady := r, prediction := p }
  | .initResult ok =>
      if s.isInitializing then
        if ok then
          chatInitEffect
            { s with isInitialized := true, contextPred := s.pendingInit,
                     isInitializing := false, pendingInit := none }
        else
          { s with isInitializing := false, pendingInit := none }
      else s

/-- Run a sequence of chat events from the initial state. -/
def runChat (evs : List ChatEv) : ChatState :=
  evs.foldl stepChat initChat

/-- Inductive invariant of the chat panel: an initialization call is
never in flight once initialization has succeeded. -/
def chatInv (s : ChatState) : Prop :=
  s.isInitializing = true → s.isInitialized = false

/-- A full cycle on a first PredictionResult — analysis, insight
arrival, successful upload, email clicked and sent — followed by a
second, distinct PredictionResult with its own insight arrival and
successful upload. -/
def fullCycleTrace : List DashEv :=
  [.analyzeOk 1, .insightsArrive 10, .uploadResult true, .emailClick,
   .emailResult true, .analyzeOk 2, .insightsArrive 20, .uploadResult true]

/-- A demonstration trace for the chat panel: the props become ready
with PredictionResult 1, the panel is opened, initialization succeeds,
then a new PredictionResult 2 arrives. -/
def chatDemoTrace : List ChatEv :=
  [.propsUpdate true (some 1), .toggle, .initResult true,
   .propsUpdate true (some 2)]

/-- A concrete stand-in for `JSON.parse` used to instantiate the
fence-equivalence theorem: parses exactly the two-character text `[]`
as the empty JSON array. -/
def jpDemo (t : List Char) : Option JsVal :=
  if t = '[' :: ']' :: [] then some (.list []) else none

/-- A concrete feature definition used to instantiate the feature
encoder theorem. -/
def demoFeature : FeatureDef :=
  { id := "engine_temp", default := 90, min := 60, max := 120 }

/-! ## Dashboard invariant lemmas -/

theorem dashInv_init : dashInv initDash := by
  unfold dashInv initDash
  decide

theorem dashInv_step (s : DashState) (e : DashEv) (h : dashInv s) :
    dashInv (stepDash s e) := by
  obtain ⟨h1, h2, h3, h4, h5, h6, h7⟩ := h
  cases e <;>
    simp only [stepDash, uploadEffect, resetEffect, dashInv] <;>
    (repeat' split) <;>
    (simp_all
     try omega)

theorem dashInv_foldl (s : DashState) (h : dashInv s) (evs : List DashEv) :
    dashInv (evs.foldl stepDash s) := by
  induction evs generalizing s with
  | nil => exact h
  | cons e tl ih => exact ih _ (dashInv_step s e h)

theorem dashInv_run (evs : List DashEv) : dashInv (runDash evs) :=
  dashInv_foldl initDash dashInv_init evs

/-! ## Claim C1 — upload at most once per PredictionResult -/

/-- Claim C1, counterexample: the upload step is NOT executed at most
once per PredictionResult.  In the trace `analyzeOk 1, insightsArrive,
analyzeOk 2, analyzeOk 3, insightsArrive`, PredictionResult 3 arrives
while stale insights are present and the guard is clear (it was reset
by the arrival of PredictionResult 2), so its own arrival triggers an
upload, the reset effect then clears the guard again, and the next
insight arrival triggers a second upload — two upload invocations while
PredictionResult 3 is current. -/
theorem uploadOncePerPrediction_cex :
    (runDash [.analyzeOk 1, .insightsArrive 10, .analyzeOk 2, .analyzeOk 3,
      .insightsArrive 30]).uploads = [1, 3, 3] ∧
    1 < (runDash [.analyzeOk 1, .insightsArrive 10, .analyzeOk 2, .analyzeOk 3,
      .insightsArrive 30]).uploads.count 3 := by
  exact ⟨by decide, by decide⟩

/-- Claim C1, amended: insight arrivals alone trigger the
artifact-generation/upload step at most once per PredictionResult
(`uploadsCurIns ≤ 1`), and at most two uploads total can occur while one
PredictionResult is current (`uploadsCur ≤ 2` — the extra one happens at
the PredictionResult's own arrival, when stale insights are present and
the guard is clear); once set, the guard is cleared only by the arrival
of a new PredictionResult (no other event resets it), and while the
guard is set an insight arrival invokes no upload. -/
theorem uploadOncePerPrediction_amended :
    (∀ evs : List DashEv,
      (runDash evs).uploadsCurIns ≤ 1 ∧ (runDash evs).uploadsCur ≤ 2) ∧
    (∀ (s : DashState) (id : ℕ), s.triggered = true →
      (stepDash s (.insightsArrive id)).uploads = s.uploads ∧
      (stepDash s (.insightsArrive id)).triggered = true) ∧
    (∀ (s : DashState) (e : DashEv), s.triggered = true →
      (∀ id, e ≠ DashEv.analyzeOk id) → (stepDash s e).triggered = true) := by
  refine ⟨fun evs => ⟨(dashInv_run evs).2.1, (dashInv_run evs).1⟩, ?_, ?_⟩
  · intro s id h
    simp [stepDash, uploadEffect, h]
  · intro s e h hne
    cases e with
    | analyzeOk id => exact absurd rfl (hne id)
    | analyzeStart => simpa [stepDash] using h
    | analyzeFail msg => simpa [stepDash] using h
    | insightsArrive id => simp [stepDash, uploadEffect, h]
    | uploadResult ok =>
        simp only [stepDash]
        split
        · split <;> simpa using h
        · exact h
    | emailClick =>
        simp only [stepDash]
        split <;> [skip; exact h]
        cases s.url <;> simpa using h
    | emailResult ok =>
        simp only [stepDash]
        split <;> [simpa using h; exact h]
    | setPhone b => simpa [stepDash] using h

/-- Claim C1 witness: the amended theorem applied to a concrete state
with the guard set and a concrete insight arrival. -/
theorem uploadOncePerPrediction_amended_witness :
    (runDash [.analyzeOk 1, .insightsArrive 10]).triggered = true ∧
    (stepDash (runDash [.analyzeOk 1, .insightsArrive 10])
        (.insightsArrive 11)).uploads
      = (runDash [.analyzeOk 1, .insightsArrive 10]).uploads :=
  ⟨by decide,
   (uploadOncePerPrediction_amended.2.1
     (runDash [.analyzeOk 1, .insightsArrive 10]) 11 (by decide)).1⟩

/-! ## Claim C2 — arrival of a new PredictionResult and the guards -/

/-- Claim C2, counterexample: after one full cycle (upload succeeded,
email sent) followed by a second distinct PredictionResult, the new
PredictionResult does get exactly one new upload, but `emailSent` is
still `true` and a further email click is a no-op: the email guard is
permanently latched, contradicting "permits a new email send". -/
theorem guardReset_cex :
    (runDash fullCycleTrace).uploads.count 2 = 1 ∧
    (runDash fullCycleTrace).uploaded = true ∧
    (runDash fullCycleTrace).emailSent = true ∧
    stepDash (runDash fullCycleTrace) .emailClick = runDash fullCycleTrace ∧
    (runDash fullCycleTrace).emails = [1] := by
  exact ⟨by decide, by decide, by decide, by decide, by decide⟩

/-- Claim C2, amended: the arrival of a new PredictionResult resets the
upload guard and the upload status (so the second PredictionResult of
the full cycle gets exactly one new upload), and the SMS send is
re-triggered per successful analysis whenever a phone number is
present; but the email guard is NOT reset — `emailSent` is latched
forever once set, so no later PredictionResult permits a new email
send. -/
theorem guardReset_amended :
    (∀ (s : DashState) (id : ℕ),
      (stepDash s (.analyzeOk id)).triggered = false ∧
      (stepDash s (.analyzeOk id)).uploaded = false ∧
      (stepDash s (.analyzeOk id)).url = none ∧
      (stepDash s (.analyzeOk id)).smsCur = (if s.phone then 1 else 0) ∧
      (stepDash s (.analyzeOk id)).emailSent = s.emailSent) ∧
    (∀ (s : DashState) (e : DashEv), s.emailSent = true →
      (stepDash s e).emailSent = true) ∧
    (runDash fullCycleTrace).uploads.count 2 = 1 ∧
    (runDash fullCycleTrace).emailSent = true := by
  refine ⟨?_, ?_, by decide, by decide⟩
  · intro s id
    simp only [stepDash, uploadEffect, resetEffect]
    split <;> simp
  · intro s e h
    cases e with
    | analyzeOk id =>
        simp only [stepDash, uploadEffect, resetEffect]
        split <;> simpa using h
    | analyzeStart => simpa [stepDash] using h
    | analyzeFail msg => simpa [stepDash] using h
    | insightsArrive id =>
        simp only [stepDash, uploadEffect]
        split <;> simpa using h
    | uploadResult ok =>
        simp only [stepDash]
        split
        · split <;> simpa using h
        · exact h
    | emailClick =>
        simp only [stepDash]
        split <;> [skip; exact h]
        cases s.url <;> simpa using h
    | emailResult ok =>
        simp only [stepDash]
        split <;> [simp [h]; exact h]
    | setPhone b => simpa [stepDash] using h

/-- Claim C2 witness: the amended theorem applied at the end of the
full cycle, showing the latch concretely. -/
theorem guardReset_amended_witness :
    (runDash fullCycleTrace).emailSent = true ∧
    (stepDash (runDash fullCycleTrace) .emailClick).emailSent = true :=
  ⟨by decide, guardReset_amended.2.1 (runDash fullCycleTrace) .emailClick (by decide)⟩

/-! ## Claim C4 — email only after upload, at most once -/

/-- Claim C4: the email send is only reachable with an uploaded URL
(a click without the button's `uploaded` rendering condition, or with a
`null` URL in `handleSendEmail`, is a no-op), and it executes at most
once per PredictionResult: once `emailSent` is set, further clicks are
no-ops, and over any whole session at most one email send succeeds. -/
theorem emailGuard :
    (∀ s : DashState, s.uploaded = false → stepDash s .emailClick = s) ∧
    (∀ s : DashState, s.url = none → stepDash s .emailClick = s) ∧
    (∀ s : DashState, s.emailSent = true → stepDash s .emailClick = s) ∧
    (∀ evs : List DashEv, (runDash evs).emailsOk ≤ 1) := by
  refine ⟨?_, ?_, ?_, fun evs => (dashInv_run evs).2.2.2.2.1⟩
  · intro s h
    simp [stepDash, h]
  · intro s h
    simp only [stepDash]
    split
    · rw [h]
    · rfl
  · intro s h
    simp [stepDash, h]

/-- Claim C4 witness: a click with no uploaded artifact is a no-op, at a
concrete state. -/
theorem emailGuard_witness :
    (runDash [.analyzeOk 1]).uploaded = false ∧
    stepDash (runDash [.analyzeOk 1]) .emailClick = runDash [.analyzeOk 1] :=
  ⟨by decide, emailGuard.1 (runDash [.analyzeOk 1]) (by decide)⟩

/-! ## Claim C5 — failed analysis keeps no partial result -/

/-- Claim C5: when the prediction call fails or rejects, the
orchestration surfaces the error message, leaves the loading state
(returns to Idle), does not touch the stored PredictionResult, the
insights, or the upload log, and the analysis can be started again
(which clears the error). -/
theorem analyzeFailureRecovers :
    ∀ (s : DashState) (msg : String),
      (stepDash s (.analyzeFail msg)).prediction = s.prediction ∧
      (stepDash s (.analyzeFail msg)).insights = s.insights ∧
      (stepDash s (.analyzeFail msg)).uploads = s.uploads ∧
      (stepDash s (.analyzeFail msg)).error = some msg ∧
      (stepDash s (.analyzeFail msg)).loading = false ∧
      (stepDash (stepDash s (.analyzeFail msg)) .analyzeStart).error = none ∧
      (stepDash (stepDash s (.analyzeFail msg)) .analyzeStart).loading = true := by
  intro s msg
  simp [stepDash]

/-! ## Claim C7 — SMS severity thresholds -/

/-- Claim C7: the SMS severity classification is a total function of the
failure probability with thresholds at 70 and 40, and maps 75 to
critical, 50 to warning and 10 to normal. -/
theorem smsSeveritySpec :
    (∀ p : ℚ, 70 ≤ p → smsSeverity p = "critical") ∧
    (∀ p : ℚ, 40 ≤ p → p < 70 → smsSeverity p = "warning") ∧
    (∀ p : ℚ, p < 40 → smsSeverity p = "normal") ∧
    smsSeverity 75 = "critical" ∧
    smsSeverity 50 = "warning" ∧
    smsSeverity 10 = "normal" := by
  refine ⟨?_, ?_, ?_, ?_, ?_, ?_⟩
  · intro p h
    simp [smsSeverity, h]
  · intro p h1 h2
    rw [smsSeverity, if_neg (by exact fun hc => absurd hc (by exact not_le.mpr h2)),
      if_pos h1]
  · intro p h
    rw [smsSeverity, if_neg (by exact fun hc => absurd hc (not_le.mpr (by linarith))),
      if_neg (by exact fun hc => absurd hc (not_le.mpr h))]
  · norm_num [smsSeverity]
  · norm_num [smsSeverity]
  · norm_num [smsSeverity]

/-- Claim C7 witness: the threshold cases applied at 75, 50 and 10. -/
theorem smsSeveritySpec_witness :
    (70 : ℚ) ≤ 75 ∧ smsSeverity 75 = "critical" ∧
    smsSeverity 50 = "warning" ∧ smsSeverity 10 = "normal" :=
  ⟨by norm_num, smsSeveritySpec.1 75 (by norm_num),
   smsSeveritySpec.2.1 50 (by norm_num) (by norm_num),
   smsSeveritySpec.2.2.1 10 (by norm_num)⟩

/-! ## Claim C9 — geolocation failure messages -/

/-- Claim C9: the four geolocation failure kinds map to four pairwise
distinct user-facing messages; a failure leaves the component with the
message shown and the Retry action visible, and retrying (re-invoking
`getCurrentLocation`) clears the error and starts a new lookup. -/
theorem geolocationErrors :
    geoErrorMessage .permissionDenied ≠ geoErrorMessage .positionUnavailable ∧
    geoErrorMessage .permissionDenied ≠ geoErrorMessage .timeoutExpired ∧
    geoErrorMessage .permissionDenied ≠ geoErrorMessage .unknownErr ∧
    geoErrorMessage .positionUnavailable ≠ geoErrorMessage .timeoutExpired ∧
    geoErrorMessage .positionUnavailable ≠ geoErrorMessage .unknownErr ∧
    geoErrorMessage .timeoutExpired ≠ geoErrorMessage .unknownErr ∧
    (∀ (s : WorkshopState) (e : GeoErrCode),
      (geoFailure s e).error = some (geoErrorMessage e) ∧
      (geoFailure s e).loading = false ∧
      retryVisible (geoFailure s e) = true) ∧
    (∀ (s : WorkshopState) (e : GeoErrCode),
      (startLocationLookup (geoFailure s e)).error = none ∧
      (startLocationLookup (geoFailure s e)).loading = true) := by
  refine ⟨by decide, by decide, by decide, by decide, by decide, by decide, ?_, ?_⟩
  · intro s e
    refine ⟨rfl, rfl, ?_⟩
    simp [retryVisible, geoFailure]
  · intro s e
    exact ⟨rfl, rfl⟩

/-! ## Claim C3 — insight responses and completion order -/

/-- Claim C3, counterexample: with two in-flight insight requests where
the second-issued resolves first, the slower first-issued response is
applied on arrival and overwrites the newer one — the final applied
insights are the FIRST request's result, not the second's.  There is no
identity check in `fetchAIInsights`. -/
theorem insightsLastIssued_cex :
    (runIns [.fetch 1, .fetch 2, .resolveOk 2, .resolveOk 1]).applied = some 1 ∧
    (some 1 : Option ℕ) ≠ some 2 :=
  ⟨by decide, by decide⟩

/-- Claim C3, amended: the applied InsightCards equal the result of
whichever successful response resolves LAST, regardless of issue order
(completion-order-wins): any pending request that resolves successfully
overwrites the applied insights unconditionally. -/
theorem insightsCompletionOrderWins :
    ∀ (s : InsState) (rid : ℕ), rid ∈ s.pending →
      (stepIns s (.resolveOk rid)).applied = some rid ∧
      (stepIns s (.resolveOk rid)).loading = false := by
  intro s rid h
  simp [stepIns, h]

/-- Claim C3 witness: the amended theorem applied to the stale
first-issued request of the counterexample trace. -/
theorem insightsCompletionOrderWins_witness :
    1 ∈ (runIns [.fetch 1, .fetch 2, .resolveOk 2]).pending ∧
    (stepIns (runIns [.fetch 1, .fetch 2, .resolveOk 2])
      (.resolveOk 1)).applied = some 1 :=
  ⟨by decide,
   (insightsCompletionOrderWins (runIns [.fetch 1, .fetch 2, .resolveOk 2]) 1
     (by decide)).1⟩

/-! ## Fence-stripping lemmas (for claim C6) -/

theorem dropNl_cons_nl (r : List Char) : dropNl ('\n' :: r) = r := rfl

theorem stripTokFuel_nil (tok : List Char) (n : ℕ) :
    stripTokFuel tok n [] = [] := by
  cases n <;> rfl

theorem stripTokFuel_succ_cons (tok : List Char) (n : ℕ) (c : Char)
    (rest : List Char) :
    stripTokFuel tok (n + 1) (c :: rest) =
      if tok.isPrefixOf (c :: rest) then
        stripTokFuel tok n (dropNl ((c :: rest).drop tok.length))
      else c :: stripTokFuel tok n rest := rfl

theorem isPrefixOfAppend (l r : List Char) : l.isPrefixOf (l ++ r) = true := by
  induction l with
  | nil => simp
  | cons a l ih => simp [List.isPrefixOf_cons₂, ih]

theorem stripTokFuel_jsonFence_head (n : ℕ) (r : List Char) :
    stripTokFuel jsonFenceTok (n + 1) (jsonFenceTok ++ r)
      = stripTokFuel jsonFenceTok n (dropNl r) := by
  have e1 : jsonFenceTok ++ r
      = bq :: bq :: bq :: 'j' :: 's' :: 'o' :: 'n' :: r := rfl
  have hp : jsonFenceTok.isPrefixOf
      (bq :: bq :: bq :: 'j' :: 's' :: 'o' :: 'n' :: r) = true := by
    rw [← e1]
    exact isPrefixOfAppend jsonFenceTok r
  have e2 : (bq :: bq :: bq :: 'j' :: 's' :: 'o' :: 'n' :: r).drop
      jsonFenceTok.length = r := rfl
  rw [e1, stripTokFuel_succ_cons, hp]
  simp [e2]

theorem stripTokFuel_fence_head (n : ℕ) (r : List Char) :
    stripTokFuel fenceTok (n + 1) (fenceTok ++ r)
      = stripTokFuel fenceTok n (dropNl r) := by
  have e1 : fenceTok ++ r = bq :: bq :: bq :: r := rfl
  have hp : fenceTok.isPrefixOf (bq :: bq :: bq :: r) = true := by
    rw [← e1]
    exact isPrefixOfAppend fenceTok r
  have e2 : (bq :: bq :: bq :: r).drop fenceTok.length = r := rfl
  rw [e1, stripTokFuel_succ_cons, hp]
  simp [e2]

theorem stripTokFuel_cons_ne (tok' : List Char) (a : Char)
    (ha : (bq == a) = false) (n : ℕ) (s : List Char) :
    stripTokFuel (bq :: tok') (n + 1) (a :: s)
      = a :: stripTokFuel (bq :: tok') n s := by
  have hp : (bq :: tok').isPrefixOf (a :: s) = false := by
    simp [List.isPrefixOf_cons₂, ha]
  simp [stripTokFuel, hp]

theorem stripTokFuel_copy (tok : List Char) (hhd : tok.head? = some bq)
    (s t : List Char) (n : ℕ) :
    bq ∉ s → stripTokFuel tok (s.length + n) (s ++ t)
      = s ++ stripTokFuel tok n t := by
  cases tok with
  | nil => simp at hhd
  | cons b tok' =>
      have hb : b = bq := by simpa using hhd
      subst hb
      induction s with
      | nil => intro _; simp
      | cons a s ih =>
          intro hs
          rw [List.mem_cons, not_or] at hs
          have ha : (bq == a) = false := beq_eq_false_iff_ne.mpr hs.1
          rw [List.cons_append,
            show (a :: s).length + n = s.length + n + 1 by
              rw [List.length_cons]; omega,
            stripTokFuel_cons_ne tok' a ha, ih hs.2, List.cons_append]

theorem stripTok_json_wrap (s : List Char) (hs : bq ∉ s) :
    stripTok jsonFenceTok (jsonFenceTok ++ '\n' :: (s ++ '\n' :: fenceTok))
      = s ++ '\n' :: fenceTok := by
  unfold stripTok
  have hlen : (jsonFenceTok ++ '\n' :: (s ++ '\n' :: fenceTok)).length
      = (s.length + 11) + 1 := by
    simp [jsonFenceTok, fenceTok]
  rw [hlen, stripTokFuel_jsonFence_head, dropNl_cons_nl,
    stripTokFuel_copy jsonFenceTok rfl s ('\n' :: fenceTok) 11 hs,
    show stripTokFuel jsonFenceTok 11 ('\n' :: fenceTok) = '\n' :: fenceTok by
      decide]

theorem stripTok_tail_fence (s : List Char) (hs : bq ∉ s) :
    stripTok fenceTok (s ++ '\n' :: fenceTok) = s ++ '\n' :: [] := by
  unfold stripTok
  have hlen : (s ++ '\n' :: fenceTok).length = s.length + 4 := by
    simp [fenceTok]
  rw [hlen, stripTokFuel_copy fenceTok rfl s ('\n' :: fenceTok) 4 hs,
    show stripTokFuel fenceTok 4 ('\n' :: fenceTok) = '\n' :: [] by decide]

theorem containsTok_cons (tok : List Char) (c : Char) (rest : List Char) :
    containsTok tok (c :: rest)
      = (tok.isPrefixOf (c :: rest) || containsTok tok rest) := rfl

theorem containsTok_json_of_wrap (r : List Char) :
    containsTok jsonFenceTok (jsonFenceTok ++ r) = true := by
  have e1 : jsonFenceTok ++ r
      = bq :: bq :: bq :: 'j' :: 's' :: 'o' :: 'n' :: r := rfl
  rw [e1, containsTok_cons, ← e1, isPrefixOfAppend]
  rfl

theorem containsTok_fence_of_wrap (r : List Char) :
    containsTok fenceTok (fenceTok ++ r) = true := by
  have e1 : fenceTok ++ r = bq :: bq :: bq :: r := rfl
  rw [e1, containsTok_cons, ← e1, isPrefixOfAppend]
  rfl

theorem containsTok_eq_false (tok : List Char) (hhd : tok.head? = some bq)
    (s : List Char) : bq ∉ s → containsTok tok s = false := by
  cases tok with
  | nil => simp at hhd
  | cons b tok' =>
      have hb : b = bq := by simpa using hhd
      subst hb
      induction s with
      | nil => intro _; rfl
      | cons a s ih =>
          intro hs
          rw [List.mem_cons, not_or] at hs
          have ha : (bq == a) = false := beq_eq_false_iff_ne.mpr hs.1
          simp [containsTok, List.isPrefixOf_cons₂, ha, ih hs.2]

theorem containsTok_json_tail (s : List Char) : bq ∉ s →
    containsTok jsonFenceTok (s ++ '\n' :: fenceTok) = false := by
  induction s with
  | nil => intro _; rfl
  | cons a s ih =>
      intro hs
      rw [List.mem_cons, not_or] at hs
      have ha : (bq == a) = false := beq_eq_false_iff_ne.mpr hs.1
      simp [containsTok, jsonFenceTok, List.isPrefixOf_cons₂, ha]
      have := ih hs.2
      simpa [jsonFenceTok] using this

theorem containsTok_json_fencewrap (s : List Char) (hs : bq ∉ s) :
    containsTok jsonFenceTok (fenceTok ++ '\n' :: (s ++ '\n' :: fenceTok))
      = false := by
  show containsTok jsonFenceTok (s ++ '\n' :: fenceTok) = false
  exact containsTok_json_tail s hs

theorem fenceStripped_json_wrap (s : List Char) (hs : bq ∉ s) :
    fenceStripped (jsonFenceTok ++ '\n' :: (s ++ '\n' :: fenceTok))
      = s ++ '\n' :: [] := by
  unfold fenceStripped
  rw [containsTok_json_of_wrap, if_pos rfl, stripTok_json_wrap s hs,
    stripTok_tail_fence s hs]

theorem fenceStripped_fence_wrap (s : List Char) (hs : bq ∉ s) :
    fenceStripped (fenceTok ++ '\n' :: (s ++ '\n' :: fenceTok))
      = s ++ '\n' :: [] := by
  unfold fenceStripped
  rw [containsTok_json_fencewrap s hs, if_neg (by simp),
    containsTok_fence_of_wrap, if_pos rfl]
  unfold stripTok
  have hlen : (fenceTok ++ '\n' :: (s ++ '\n' :: fenceTok)).length
      = (s.length + 7) + 1 := by
    simp [fenceTok]
  rw [hlen, stripTokFuel_fence_head, dropNl_cons_nl,
    stripTokFuel_copy fenceTok rfl s ('\n' :: fenceTok) 7 hs,
    show stripTokFuel fenceTok 7 ('\n' :: fenceTok) = '\n' :: [] by decide]

theorem fenceStripped_id (s : List Char) (hs : bq ∉ s) :
    fenceStripped s = s := by
  unfold fenceStripped
  rw [containsTok_eq_false jsonFenceTok rfl s hs,
    containsTok_eq_false fenceTok rfl s hs]
  simp

theorem trimChars_append_nl (s : List Char) :
    trimChars (s ++ '\n' :: []) = trimChars s := by
  have h : isJsWs '\n' = true := rfl
  simp [trimChars, List.reverse_append, List.dropWhile_cons, h]

/-! ## Claim C6 — fenced and unfenced insight text -/

/-- Claim C6: for any insight text without backticks, the code-fenced
forms (wrapped in 3-backtick-`json` markers or plain 3-backtick
markers, with the newlines the fences introduce) parse to exactly the
same InsightCard list as the unwrapped text, whatever `JSON.parse`
does; and malformed text (where `JSON.parse` throws, or returns a
non-array) yields the signalled parse failure `none`, which the caller
turns into the raw-text fallback rendering — parsing is a total
function and never crashes. -/
theorem insightParseProps :
    (∀ (jp : List Char → Option JsVal) (s : List Char), bq ∉ s →
      parseInsights jp (jsonFenceTok ++ '\n' :: (s ++ '\n' :: fenceTok))
        = parseInsights jp s) ∧
    (∀ (jp : List Char → Option JsVal) (s : List Char), bq ∉ s →
      parseInsights jp (fenceTok ++ '\n' :: (s ++ '\n' :: fenceTok))
        = parseInsights jp s) ∧
    (∀ (jp : List Char → Option JsVal) (s : List Char),
      jp (trimChars (fenceStripped s)) = none → parseInsights jp s = none) ∧
    (∀ (jp : List Char → Option JsVal) (s : List Char),
      jp (trimChars (fenceStripped s)) = some JsVal.nonList →
      parseInsights jp s = none) ∧
    (∀ (jp : List Char → Option JsVal) (text : List Char),
      parseInsights jp text = none →
      renderInsightRegion jp false none (some text)
        = InsightView.rawTextView text) := by
  refine ⟨?_, ?_, ?_, ?_, ?_⟩
  · intro jp s hs
    unfold parseInsights
    rw [fenceStripped_json_wrap s hs, trimChars_append_nl, fenceStripped_id s hs]
  · intro jp s hs
    unfold parseInsights
    rw [fenceStripped_fence_wrap s hs, trimChars_append_nl, fenceStripped_id s hs]
  · intro jp s h
    unfold parseInsights
    rw [h]
  · intro jp s h
    unfold parseInsights
    rw [h]
  · intro jp text h
    simp [renderInsightRegion, h]

/-- Claim C6 witness: the fence-equivalence applied to the concrete
text `[]` and a concrete `JSON.parse` stand-in. -/
theorem insightParseProps_witness :
    bq ∉ ('[' :: ']' :: []) ∧
    parseInsights jpDemo
        (jsonFenceTok ++ '\n' :: (('[' :: ']' :: []) ++ '\n' :: fenceTok))
      = parseInsights jpDemo ('[' :: ']' :: []) :=
  ⟨by decide, insightParseProps.1 jpDemo ('[' :: ']' :: []) (by decide)⟩

/-! ## Claim C8 — feature encoder shape (spec-modelled) -/

/-- Claim C8 (spec-modelled, since `convertToFeatures` is outside the
provided sources): for every telemetry input and schema, the encoder
output has exactly the schema's length, and the entry for each schema
position is the input's value for that feature when present and within
range, and the schema default otherwise. -/
theorem featureEncoderSpec :
    ∀ (schema : List FeatureDef) (input : String → Option ℚ),
      (convertToFeatures schema input).length = schema.length ∧
      (∀ (i : ℕ) (h : i < schema.length),
        (convertToFeatures schema input).get
            ⟨i, by simpa [convertToFeatures] using h⟩
          = encodeFeature input (schema.get ⟨i, h⟩)) ∧
      (∀ f : FeatureDef,
        (input f.id = none → encodeFeature input f = f.default) ∧
        (∀ v : ℚ, input f.id = some v → f.min ≤ v → v ≤ f.max →
          encodeFeature input f = v) ∧
        (∀ v : ℚ, input f.id = some v → ¬(f.min ≤ v ∧ v ≤ f.max) →
          encodeFeature input f = f.default)) := by
  intro schema input
  refine ⟨by simp [convertToFeatures], ?_, ?_⟩
  · intro i h
    simp [convertToFeatures]
  · intro f
    refine ⟨fun h => by simp [encodeFeature, h], fun v hv h1 h2 => ?_,
      fun v hv h => ?_⟩
    · simp [encodeFeature, hv, h1, h2]
    · simp [encodeFeature, hv, h]

/-- Claim C8 witness: the encoder applied to a one-entry schema with an
empty input falls back to the default. -/
theorem featureEncoderSpec_witness :
    (convertToFeatures [demoFeature] (fun _ => none)).length = 1 ∧
    encodeFeature (fun _ => none) demoFeature = demoFeature.default :=
  ⟨(featureEncoderSpec [demoFeature] (fun _ => none)).1,
   ((featureEncoderSpec [demoFeature] (fun _ => none)).2.2 demoFeature).1 rfl⟩

/-! ## Chat invariant lemmas -/

theorem chatInv_init : chatInv initChat := fun h => by
  simp [initChat] at h

theorem chatInv_step (s : ChatState) (e : ChatEv) (h : chatInv s) :
    chatInv (stepChat s e) := by
  cases e <;>
    simp only [stepChat, chatInitEffect, chatInv] <;>
    (repeat' split) <;> simp_all [chatInv]

theorem chatInv_foldl (s : ChatState) (h : chatInv s) (evs : List ChatEv) :
    chatInv (evs.foldl stepChat s) := by
  induction evs generalizing s with
  | nil => exact h
  | cons e tl ih => exact ih _ (chatInv_step s e h)

theorem chatInv_run (evs : List ChatEv) : chatInv (runChat evs) :=
  chatInv_foldl initChat chatInv_init evs

/-! ## Claim C10 — chat initialization happens at most once -/

/-- Claim C10: in any reachable chat state where initialization has
succeeded, no further event — reopening the panel, a new
PredictionResult arriving in the props, or anything else — invokes the
chat-initialization collaborator again, and the captured context is
kept; concretely, after a successful initialization with
PredictionResult 1 and the arrival of PredictionResult 2, the chat
still holds the context of PredictionResult 1 with exactly one
initialization call made. -/
theorem chatInitOnce :
    (∀ (evs : List ChatEv) (e : ChatEv), (runChat evs).isInitialized = true →
      (stepChat (runChat evs) e).initCalls = (runChat evs).initCalls ∧
      (stepChat (runChat evs) e).isInitialized = true ∧
      (stepChat (runChat evs) e).contextPred = (runChat evs).contextPred) ∧
    ((runChat chatDemoTrace).isInitialized = true ∧
     (runChat chatDemoTrace).contextPred = some 1 ∧
     (runChat chatDemoTrace).initCalls = [1] ∧
     (runChat chatDemoTrace).prediction = some 2) := by
  refine ⟨?_, by decide, by decide, by decide, by decide⟩
  intro evs e h
  have hni : (runChat evs).isInitializing = false := by
    cases hx : (runChat evs).isInitializing
    · rfl
    · have hc := chatInv_run evs hx
      rw [h] at hc
      exact absurd hc (by simp)
  cases e with
  | toggle => simp [stepChat, chatInitEffect, h]
  | propsUpdate r p => simp [stepChat, chatInitEffect, h]
  | initResult ok => simp [stepChat, hni, h]

/-- Claim C10 witness: the theorem applied after the demonstration
trace, with yet another PredictionResult arriving. -/
theorem chatInitOnce_witness :
    (runChat chatDemoTrace).isInitialized = true ∧
    (stepChat (runChat chatDemoTrace) (.propsUpdate true (some 3))).initCalls
      = (runChat chatDemoTrace).initCalls :=
  ⟨by decide,
   (chatInitOnce.1 chatDemoTrace (.propsUpdate true (some 3)) (by decide)).1⟩

end PredMaint

